import Mathlib

/-!
Verification of the Honeypot API core (scam classifier, intelligence
extractor, conversational strategy engine, session orchestration).

Shallow embedding of the Python sources:
  app/main.py       — `scam_detection` turn orchestration (`processTurn`), and
                      the cross-invocation service loop including its
                      persistence calls (`serviceTurn`, `runService`)
  core/detector.py  — `ScamDetector` (confidence scoring, scam-type priority)
  core/extractor.py — `IntelligenceExtractor` (phone normalization, URL
                      suspicion heuristic)
  core/agent.py     — `AutonomousAgent` (strategy selection, attempt caps)
  core/models.py    — data model (`ExtractedIntelligence.has_intelligence`, …)
  core/database.py  — session persistence (`save_session`, `get_session`,
                      `mark_callback_sent`)

Modelling conventions:
* Python floats are embedded as `ℚ` (every constant in the scoring code is an
  exact decimal, so rational arithmetic is faithful; `round(x, 2)` is embedded
  as `round2`).
* Regex matching is not embedded: the classifier is parameterised by an
  abstract `search` primitive, and the per-category match result
  (`category_matches`, a Python dict from category name to the nonempty list
  of matched rules) is embedded as an association list in insertion order.
* `urlparse` is embedded abstractly: a parse either yields a netloc string or
  fails (`Option String`, `none` = the exception path of the Python code).
* Randomness (persona utterance choice), wall-clock time, persistence and the
  outbound HTTP call are external effects; they enter the model as explicit
  inputs (`agentReply`, `elapsed`, `callbackSucceeds`).
-/

/-! ## Data model (core/models.py) -/

inductive Sender
  | scammer
  | user
  | agent
deriving DecidableEq, Repr

structure Message where
  sender : Sender
  text : String
  timestamp : Option Int := none
deriving DecidableEq, Repr

inductive ScamType
  | bank_fraud
  | upi_fraud
  | phishing
  | fake_offer
  | otp_harvesting
  | unknown
deriving DecidableEq, Repr

/-- The `.value` of the Python `ScamType` enum. -/
def ScamType.value : ScamType → String
  | .bank_fraud => "bank_fraud"
  | .upi_fraud => "upi_fraud"
  | .phishing => "phishing"
  | .fake_offer => "fake_offer"
  | .otp_harvesting => "otp_harvesting"
  | .unknown => "unknown"

structure ScamDetectionResult where
  scamDetected : Bool := false
  confidenceScore : ℚ := 0
  scamType : ScamType := .unknown
  indicators : List String := []
  reasoning : String := ""
deriving DecidableEq, Repr

structure ExtractedIntelligence where
  bankAccounts : List String := []
  ifscCodes : List String := []
  upiIds : List String := []
  phishingLinks : List String := []
  phoneNumbers : List String := []
  suspiciousKeywords : List String := []
deriving DecidableEq, Repr

/-- `ExtractedIntelligence.has_intelligence` (core/models.py lines 133-141):
any of the first five lists nonempty; `suspiciousKeywords` does not count. -/
def ExtractedIntelligence.has_intelligence (e : ExtractedIntelligence) : Bool :=
  !e.bankAccounts.isEmpty || !e.ifscCodes.isEmpty || !e.upiIds.isEmpty ||
    !e.phishingLinks.isEmpty || !e.phoneNumbers.isEmpty

structure EngagementMetrics where
  totalMessagesExchanged : Nat := 0
  numberOfTurns : Nat := 0
  engagementDurationSeconds : ℚ := 0
  scamDetectionConfidence : ℚ := 0
deriving DecidableEq, Repr

/-- `SessionState` (core/models.py). The `datetime` bookkeeping fields
(`createdAt`, `updatedAt`) are wall-clock only and are not modelled. -/
structure SessionState where
  sessionId : String
  messages : List Message := []
  detectionResult : Option ScamDetectionResult := none
  extractedIntelligence : ExtractedIntelligence := {}
  engagementMetrics : EngagementMetrics := {}
  isActive : Bool := true
  callbackSent : Bool := false
  agentNotes : String := ""
deriving DecidableEq, Repr

/-! ## String helpers

Python's `in`, `startswith` and `endswith` on strings, expressed over the
character lists underlying Lean strings. -/

/-- Python `needle in hay` (substring containment). -/
def strOccurs (needle hay : String) : Bool :=
  (List.range (hay.toList.length + 1)).any
    (fun i => needle.toList.isPrefixOf (hay.toList.drop i))

/-- Python `s.startswith(pre)`. -/
def strStarts (pre s : String) : Bool :=
  pre.toList.isPrefixOf s.toList

/-- Python `s.endswith(suf)`. -/
def strEnds (suf s : String) : Bool :=
  suf.toList.isSuffixOf s.toList

/-- Python `s.lower()` (the inputs under study are ASCII). -/
def strLower (s : String) : String :=
  String.mk (s.toList.map
    (fun c => if 'A' ≤ c ∧ c ≤ 'Z' then Char.ofNat (c.toNat + 32) else c))

/-- Python `s[n:]` on character counts. -/
def strDrop (s : String) (n : Nat) : String :=
  String.mk (s.toList.drop n)

/-! ## Configuration constants (core/config.py) -/

def SCAM_DETECTION_THRESHOLD : ℚ := 6/10

def MIN_TURNS_BEFORE_CALLBACK : Nat := 3

/-! ## Classifier (core/detector.py)

`category_matches` is embedded as an association list
`List (String × List String)` pairing a category name with its (nonempty)
list of matched rule patterns, in catalog order, exactly as the Python dict
is populated. -/

/-- Python `round(x, 2)` on the exact decimals produced by the scorer
(no half-integer ever reaches the rounding, so round-half-even and
round-half-up agree). -/
def round2 (q : ℚ) : ℚ :=
  ((round (q * 100) : ℤ) : ℚ) / 100

/-- Python `category in category_matches` (dict-key membership). -/
def hasCat (cm : List (String × List String)) (c : String) : Bool :=
  cm.any (fun p => p.1 == c)

/-- Per-category bonus of `_calculate_confidence`:
`+0.1` if the category matched ≥ 2 rules, a further `+0.1` if ≥ 3. -/
def multiRuleBonus (n : Nat) : ℚ :=
  (if 2 ≤ n then 1/10 else 0) + (if 3 ≤ n then 1/10 else 0)

/-- `ScamDetector._calculate_confidence` (core/detector.py lines 83-123). -/
def calculate_confidence (cm : List (String × List String)) : ℚ :=
  let s1 := min ((cm.length : ℚ) * (15/100)) (45/100)
  let s2 := s1 + (cm.map (fun p => multiRuleBonus p.2.length)).sum
  let s3 := s2 + (if hasCat cm "urgency" then 15/100 else 0)
    + (if hasCat cm "otp_pin_harvesting" then 15/100 else 0)
    + (if hasCat cm "phishing" then 15/100 else 0)
  let s4 := s3 + (if hasCat cm "upi_fraud" then 1/10 else 0)
  let s5 := s4 + (if hasCat cm "bank_fraud" then 1/10 else 0)
  let s6 := s5 +
    (if hasCat cm "urgency" && (hasCat cm "bank_fraud" || hasCat cm "upi_fraud")
      then 15/100 else 0)
  min s6 (99/100)

/-- The fixed priority list of `_determine_scam_type`. -/
def scamTypePriority : List (String × ScamType) :=
  [("upi_fraud", .upi_fraud), ("bank_fraud", .bank_fraud),
    ("phishing", .phishing), ("fake_offers", .fake_offer),
    ("otp_pin_harvesting", .otp_harvesting)]

/-- `ScamDetector._determine_scam_type` (core/detector.py lines 125-145):
first category of the priority list present in `category_matches` wins;
otherwise urgency / suspicious keywords fall back to phishing, else unknown. -/
def determine_scam_type (cm : List (String × List String)) : ScamType :=
  match scamTypePriority.find? (fun p => hasCat cm p.1) with
  | some p => p.2
  | none =>
      if hasCat cm "urgency" || hasCat cm "suspicious_keywords" then .phishing
      else .unknown

/-- `ScamDetector._generate_reasoning` (core/detector.py lines 147-172). -/
def generate_reasoning (cm : List (String × List String)) (st : ScamType) : String :=
  let parts :=
    (if hasCat cm "urgency" then ["Creates false urgency"] else []) ++
    (if hasCat cm "bank_fraud" then ["Impersonates bank"] else []) ++
    (if hasCat cm "upi_fraud" then ["Requests UPI transfer"] else []) ++
    (if hasCat cm "phishing" then ["Contains suspicious links"] else []) ++
    (if hasCat cm "fake_offers" then ["Promises fake rewards"] else []) ++
    (if hasCat cm "otp_pin_harvesting" then ["Requests sensitive codes"] else []) ++
    (if hasCat cm "suspicious_keywords" then ["Uses suspicious terminology"] else [])
  if parts.isEmpty then "Low confidence detection"
  else "Detected " ++ st.value ++ ": " ++ String.intercalate "; " parts

/-- The early-return result of `ScamDetector.detect` when no category
matched (core/detector.py lines 53-61). -/
def noMatchResult : ScamDetectionResult :=
  { scamDetected := false
    confidenceScore := 1/10
    scamType := .unknown
    indicators := []
    reasoning := "No scam indicators detected" }

/-- The tail of `ScamDetector.detect` (core/detector.py lines 53-81), given
the computed `category_matches` and the flat `indicators_found` list.
`scamDetected` is decided on the unrounded confidence; the reported score is
rounded to two decimals; indicators are deduplicated and capped at 10. -/
def detectCore (threshold : ℚ) (cm : List (String × List String))
    (indicators_found : List String) : ScamDetectionResult :=
  if cm.isEmpty then noMatchResult
  else
    let confidence := calculate_confidence cm
    { scamDetected := decide (threshold ≤ confidence)
      confidenceScore := round2 confidence
      scamType := determine_scam_type cm
      indicators := indicators_found.eraseDups.take 10
      reasoning := generate_reasoning cm (determine_scam_type cm) }

/-- The detector object: `self.compiled_patterns`, built once in
`__init__` and never mutated afterwards. -/
structure ScamDetector where
  compiled_patterns : List (String × List String)

/-- The category-matching loop of `ScamDetector.detect` (lines 43-51):
keep, per category, the rules that match the corpus; drop categories with
no match. `search pat text` abstracts `re.search`. -/
def computeCategoryMatches (search : String → String → Bool)
    (compiled : List (String × List String)) (text : String) :
    List (String × List String) :=
  (compiled.map (fun p => (p.1, p.2.filter (fun pat => search pat text)))).filter
    (fun p => !p.2.isEmpty)

/-- `ScamDetector.detect` (core/detector.py lines 29-81) with explicit state
passing: the Python method reads `self.compiled_patterns` and assigns nothing
to `self`, so the returned state is the input state. -/
def ScamDetector.detect (self : ScamDetector) (search : String → String → Bool)
    (threshold : ℚ) (messages : List Message) :
    ScamDetectionResult × ScamDetector :=
  let all_text := strLower (String.intercalate " " (messages.map (fun m => m.text)))
  let cm := computeCategoryMatches search self.compiled_patterns all_text
  let indicators_found := cm.flatMap (fun p => p.2.take 2)
  (detectCore threshold cm indicators_found, self)

/-! ## Extractor (core/extractor.py) -/

/-- The country code hard-wired into `_extract_phone_numbers`
(the `"+91{digits}"` / `startswith("91")` literals). -/
def countryCode : String := "91"

/-- Python `''.join(c for c in number if c.isdigit())` (line 203). -/
def phoneDigits (number : String) : String :=
  String.mk (number.toList.filter Char.isDigit)

/-- The normalization branch of `_extract_phone_numbers`
(core/extractor.py lines 202-212), applied to one regex match:
keep only the digits; 10 digits gain the country code, 12 digits already
starting with it gain only `+`, any other length above 10 gains `+`,
and shorter matches are discarded (`continue`). -/
def normalize_phone (number : String) : Option String :=
  let digits := phoneDigits number
  if digits.length = 10 then some ("+" ++ countryCode ++ digits)
  else if digits.length = 12 ∧ strStarts countryCode digits = true then
    some ("+" ++ digits)
  else if 10 < digits.length then some ("+" ++ digits)
  else none

/-- `_extract_phone_numbers` (core/extractor.py lines 193-217) given the
list of raw regex matches in match order: normalize, deduplicate by
first-seen order, cap at 5. -/
def extract_phone_numbers (rawMatches : List String) : List String :=
  (rawMatches.foldl
    (fun numbers m =>
      match normalize_phone m with
      | none => numbers
      | some n => if n ∈ numbers then numbers else numbers ++ [n])
    []).take 5

/-- `IntelligenceExtractor.LEGITIMATE_DOMAINS` (core/extractor.py lines 20-30). -/
def LEGITIMATE_DOMAINS : List String :=
  ["google.com", "gmail.com", "yahoo.com", "hotmail.com",
    "facebook.com", "instagram.com", "twitter.com", "x.com",
    "youtube.com", "linkedin.com",
    "amazon.in", "amazon.com", "flipkart.com",
    "paytm.com", "phonepe.com", "google.com/pay",
    "sbi.co.in", "onlinesbi.sbi", "hdfcbank.com", "icicibank.com",
    "axisbank.com", "pnbindia.in", "bankofbaroda.in",
    "rbi.org.in", "npci.org.in",
    "whatsapp.com", "telegram.org"]

/-- `IntelligenceExtractor.SUSPICIOUS_TLDS` (core/extractor.py line 33). -/
def SUSPICIOUS_TLDS : List String :=
  [".tk", ".ml", ".ga", ".cf", ".top", ".xyz", ".club", ".online", ".site"]

/-- The `www.` strip of `_is_suspicious_url` (lines 161-162). -/
def strip_www (domain : String) : String :=
  if strStarts "www." domain then strDrop domain 4 else domain

/-- The allowlist loop of `_is_suspicious_url` (lines 164-167): the domain
equals an allowlist entry or is a subdomain of one. -/
def allowlisted (domain : String) : Bool :=
  LEGITIMATE_DOMAINS.any (fun legit => domain == legit || strEnds ("." ++ legit) domain)

/-- Suspicious-TLD step of `_is_suspicious_url` (line 170). -/
def suspiciousTldHit (domain : String) : Bool :=
  SUSPICIOUS_TLDS.any (fun tld => strEnds tld domain)

/-- Typosquat step of `_is_suspicious_url` (lines 174-177): the first dot
component of an allowlisted domain occurs in the host, and the host is not
that domain. -/
def brandFragment (legit : String) : String :=
  String.mk (legit.toList.takeWhile (fun c => c != '.'))

def typosquatHit (domain : String) : Bool :=
  LEGITIMATE_DOMAINS.any
    (fun legit => strOccurs (brandFragment legit) domain && domain != legit)

/-- Credential-harvesting keywords of `_is_suspicious_url` (line 180). -/
def CRED_KEYWORDS : List String :=
  ["verify", "secure", "login", "update", "kyc", "confirm", "validate"]

/-- Credential-keyword step of `_is_suspicious_url` (lines 180-182). -/
def credKeywordHit (domain : String) : Bool :=
  CRED_KEYWORDS.any (fun kw => strOccurs kw domain)

/-- URL-shortener step of `_is_suspicious_url` (line 185). -/
def shortenerHit (domain : String) : Bool :=
  ["bit.ly", "tinyurl", "t.co", "short.link", "goo.gl"].any
    (fun short => strOccurs short domain)

/-- The decision chain of `_is_suspicious_url` (core/extractor.py
lines 164-188) on the lowercased, `www.`-stripped host. -/
def is_suspicious_domain (domain : String) : Bool :=
  if allowlisted domain then false
  else if suspiciousTldHit domain then true
  else if typosquatHit domain then true
  else if credKeywordHit domain then true
  else if shortenerHit domain then true
  else true

/-- `IntelligenceExtractor._is_suspicious_url` (core/extractor.py
lines 150-191). `urlparse` is abstracted: the argument is the parsed netloc,
or `none` when parsing raised (the `except` path, line 190-191, which
returns suspicious). -/
def is_suspicious_url : Option String → Bool
  | none => true
  | some netloc => is_suspicious_domain (strip_www (strLower netloc))

/-- Modelled from the spec (§4.2 step 2 of the URL suspicion heuristic, and
claim C10's wording): "not suspicious iff the host equals, or is a subdomain
of, an entry in the fixed allowlist of known legitimate domains". Spec-side
definition, to be compared with the code-side `is_suspicious_domain`. -/
def spec_allowlist_membership (host : String) : Bool :=
  LEGITIMATE_DOMAINS.any (fun legit => host == legit || strEnds ("." ++ legit) host)

/-! ## Strategy engine (core/agent.py) -/

inductive TargetField
  | upi
  | bank
  | phone
  | link
deriving DecidableEq, Repr

/-- Python strategy strings of `_determine_strategy`. -/
inductive Strategy
  | extract (f : TargetField)
  | express_concern
  | express_confusion
  | ask_clarification
  | show_cooperation
deriving DecidableEq, Repr

/-- Shape of the reply produced by `generate_response` (the concrete
utterance text is chosen at random from fixed pools and is abstracted to
its kind). -/
inductive ResponseKind
  | extraction_question (f : TargetField)
  | concern
  | confusion
  | clarification
  | cooperation
  | random_fallback
deriving DecidableEq, Repr

/-- `ConversationMemory` (core/agent.py lines 14-31): per-field extracted
flags and attempt counters. `scammer_claims` / `last_topics` are write-only
in the modelled paths and omitted. -/
structure ConversationMemory where
  extracted_so_far : TargetField → Bool
  extraction_attempts : TargetField → Nat

def initMemory : ConversationMemory :=
  { extracted_so_far := fun _ => false
    extraction_attempts := fun _ => 0 }

/-- `ConversationMemory.mark_extracted`. -/
def markExtracted (m : ConversationMemory) (f : TargetField) : ConversationMemory :=
  { m with extracted_so_far := fun g => if g = f then true else m.extracted_so_far g }

/-- `ConversationMemory.record_extraction_attempt`. -/
def recordAttempt (m : ConversationMemory) (f : TargetField) : ConversationMemory :=
  { m with extraction_attempts :=
      fun g => if g = f then m.extraction_attempts g + 1 else m.extraction_attempts g }

/-- `AutonomousAgent._determine_strategy` (core/agent.py lines 152-191):
fixed-priority keyword sniffing on the lowercased latest scammer message;
each extraction rule is guarded by "field list still empty AND attempt
counter for the field < 2"; a guarded rule that fails its guard falls
through to the next rule. -/
def determine_strategy (msg : String) (extracted : ExtractedIntelligence)
    (mem : ConversationMemory) (turn_count : Nat) : Strategy :=
  if (strOccurs "upi" msg || strOccurs "paytm" msg || strOccurs "phonepe" msg)
      && extracted.upiIds.isEmpty
      && decide (mem.extraction_attempts .upi < 2) then .extract .upi
  else if (strOccurs "bank" msg || strOccurs "account" msg || strOccurs "transfer" msg)
      && extracted.bankAccounts.isEmpty
      && decide (mem.extraction_attempts .bank < 2) then .extract .bank
  else if (strOccurs "call" msg || strOccurs "phone" msg || strOccurs "contact" msg)
      && extracted.phoneNumbers.isEmpty
      && decide (mem.extraction_attempts .phone < 2) then .extract .phone
  else if (strOccurs "click" msg || strOccurs "link" msg || strOccurs "website" msg)
      && extracted.phishingLinks.isEmpty
      && decide (mem.extraction_attempts .link < 2) then .extract .link
  else if ["hurry", "quick", "now", "urgent", "immediately"].any
      (fun w => strOccurs w msg) then .express_concern
  else if ["send", "share", "provide", "give"].any
      (fun w => strOccurs w msg) then .express_confusion
  else if turn_count ≤ 2 then .ask_clarification
  else .show_cooperation

/-- Lines 96-103 of `generate_response`: the latest scammer-authored
message, lowercased. -/
def lastScammerMsg (messages : List Message) : Option String :=
  (messages.reverse.find? (fun m => m.sender == Sender.scammer)).map
    (fun m => strLower m.text)

/-- Lines 106-113 of `generate_response`: mark every field already present
in the accumulated intelligence as extracted. -/
def updateFlags (mem : ConversationMemory) (extracted : ExtractedIntelligence) :
    ConversationMemory :=
  let m1 := if !extracted.upiIds.isEmpty then markExtracted mem .upi else mem
  let m2 := if !extracted.bankAccounts.isEmpty then markExtracted m1 .bank else m1
  let m3 := if !extracted.phoneNumbers.isEmpty then markExtracted m2 .phone else m2
  if !extracted.phishingLinks.isEmpty then markExtracted m3 .link else m3

/-- `AutonomousAgent.generate_response` (core/agent.py lines 82-150) as a
state transition on `(memory, turn_count)`: increment the turn counter,
find the latest scammer message (random fallback if none), refresh the
extracted flags from the accumulated intelligence, pick a strategy, and for
an extraction strategy whose flag is still clear ask the question and bump
that field's attempt counter. -/
def generate_response_step (mem : ConversationMemory) (turn_count : Nat)
    (messages : List Message) (extracted : ExtractedIntelligence) :
    ResponseKind × ConversationMemory × Nat :=
  let tc := turn_count + 1
  match lastScammerMsg messages with
  | none => (.random_fallback, mem, tc)
  | some msg =>
    let m4 := updateFlags mem extracted
    match determine_strategy msg extracted m4 tc with
    | .extract f =>
        if m4.extracted_so_far f = false then
          (.extraction_question f, recordAttempt m4 f, tc)
        else (.random_fallback, m4, tc)
    | .express_concern => (.concern, m4, tc)
    | .express_confusion => (.confusion, m4, tc)
    | .ask_clarification => (.clarification, m4, tc)
    | .show_cooperation => (.cooperation, m4, tc)

/-- A sequence of `generate_response` turns, each fed the transcript and
accumulated intelligence of that turn; returns the final memory, final turn
count and the response kinds in order. -/
def runAgentTurns (mem : ConversationMemory) (tc : Nat) :
    List (List Message × ExtractedIntelligence) →
      ConversationMemory × Nat × List ResponseKind
  | [] => (mem, tc, [])
  | (msgs, ext) :: rest =>
    let step := generate_response_step mem tc msgs ext
    let tail := runAgentTurns step.2.1 step.2.2 rest
    (tail.1, tail.2.1, step.1 :: tail.2.2)

/-! ## Session orchestration (app/main.py, `scam_detection`) -/

/-- The fixed non-engaged reply (app/main.py line 204). -/
def genericReply : String := "Thank you for the information. I'll look into this."

/-- History merge of app/main.py lines 136-141: the dedup key set
`{(sender, text)}` is computed once from the current messages, then every
history message whose key is absent is appended (in history order). -/
def mergeHistory (msgs history : List Message) : List Message :=
  let existing := msgs.map (fun m => (m.sender, m.text))
  msgs ++ history.filter (fun m => decide ((m.sender, m.text) ∉ existing))

/-- The per-field merge loop of app/main.py lines 156-179: append each newly
extracted value not already present, preserving first-seen order. -/
def mergeField (acc new : List String) : List String :=
  new.foldl (fun a x => if x ∈ a then a else a ++ [x]) acc

/-- Field-by-field intelligence merge (app/main.py lines 156-179). -/
def mergeIntel (acc new : ExtractedIntelligence) : ExtractedIntelligence :=
  { bankAccounts := mergeField acc.bankAccounts new.bankAccounts
    ifscCodes := mergeField acc.ifscCodes new.ifscCodes
    upiIds := mergeField acc.upiIds new.upiIds
    phishingLinks := mergeField acc.phishingLinks new.phishingLinks
    phoneNumbers := mergeField acc.phoneNumbers new.phoneNumbers
    suspiciousKeywords := mergeField acc.suspiciousKeywords new.suspiciousKeywords }

/-- Number of scammer-authored messages (app/main.py line 207). -/
def scammerCount (msgs : List Message) : Nat :=
  (msgs.filter (fun m => m.sender == Sender.scammer)).length

/-- External collaborators and configuration of one turn: the classifier and
extractor (pure functions of the transcript), the detection threshold and the
minimum-turns gate. -/
structure TurnEnv where
  detectFn : List Message → ScamDetectionResult
  extractFn : List Message → ExtractedIntelligence
  threshold : ℚ
  minTurns : Nat

/-- Per-turn inputs: the incoming message, optional history, and the
external effects of this turn (whether the outbound callback call would
succeed, the agent's randomly rendered reply, the notes the bound agent
would generate — `none` when no agent is registered — and the elapsed
wall-clock time). -/
structure TurnInput where
  incoming : Message
  history : List Message := []
  callbackSucceeds : Bool := false
  agentReply : String := ""
  agentNotes : Option String := none
  elapsed : ℚ := 0

structure TurnOutcome where
  session : SessionState
  callbackAttempted : Bool
  reply : String

/-- Steps of app/main.py lines 132-141: the transcript after appending the
incoming message and merging the supplied history. -/
def turnTranscript (s : SessionState) (inp : TurnInput) : List Message :=
  mergeHistory (s.messages ++ [inp.incoming]) inp.history

/-- The detection result of this turn (app/main.py line 148). -/
def turnDetection (env : TurnEnv) (s : SessionState) (inp : TurnInput) :
    ScamDetectionResult :=
  env.detectFn (turnTranscript s inp)

/-- The accumulated intelligence after this turn's merge
(app/main.py lines 154-179). -/
def turnIntel (env : TurnEnv) (s : SessionState) (inp : TurnInput) :
    ExtractedIntelligence :=
  mergeIntel s.extractedIntelligence (env.extractFn (turnTranscript s inp))

/-- The agent-engagement gate of app/main.py line 184. -/
def turnEngaged (env : TurnEnv) (s : SessionState) (inp : TurnInput) : Bool :=
  (turnDetection env s inp).scamDetected &&
    decide (env.threshold ≤ (turnDetection env s inp).confidenceScore)

/-- The message list at the end of the turn: the agent's reply is appended
when the agent engaged (app/main.py line 199). -/
def turnFinalMessages (env : TurnEnv) (s : SessionState) (inp : TurnInput) :
    List Message :=
  if turnEngaged env s inp then
    turnTranscript s inp ++ [{ sender := Sender.agent, text := inp.agentReply }]
  else turnTranscript s inp

/-- Callback readiness, app/main.py lines 218-223: scam detected, enough
scammer turns, callback not yet sent, and actionable intelligence present. -/
def turnReady (env : TurnEnv) (s : SessionState) (inp : TurnInput) : Bool :=
  (turnDetection env s inp).scamDetected &&
    decide (env.minTurns ≤ scammerCount (turnFinalMessages env s inp)) &&
    !s.callbackSent &&
    (turnIntel env s inp).has_intelligence

/-- One invocation of the `/api/scam-detection` handler
(app/main.py lines 119-253) for an existing session: append the incoming
message, merge history, classify, extract and merge intelligence, engage the
agent when the detection clears the threshold, recompute metrics, evaluate
callback readiness, attempt the callback when ready (latching
`callbackSent` only on success), and return the reply.

A turn that aborts in the handler's broad `except` branch (for instance the
`session.metadata` assignment at line 145 raises for requests carrying
non-null metadata, because `SessionState` declares no such field) discards
the in-memory session mutations, persists nothing and attempts no callback;
this function models the completed, non-exception path, reachable by
requests with null metadata. -/
def processTurn (env : TurnEnv) (s : SessionState) (inp : TurnInput) : TurnOutcome :=
  let detection := turnDetection env s inp
  let msgs2 := turnFinalMessages env s inp
  let ready := turnReady env s inp
  { session :=
      { s with
        messages := msgs2
        detectionResult := some detection
        extractedIntelligence := turnIntel env s inp
        engagementMetrics :=
          { totalMessagesExchanged := msgs2.length
            numberOfTurns := scammerCount msgs2
            engagementDurationSeconds := inp.elapsed
            scamDetectionConfidence := detection.confidenceScore }
        agentNotes := if ready then inp.agentNotes.getD s.agentNotes else s.agentNotes
        callbackSent := if ready && inp.callbackSucceeds then true else s.callbackSent }
    callbackAttempted := ready
    reply := if turnEngaged env s inp then inp.agentReply else genericReply }

/-! ## Persistence layer (core/database.py)

The store models the `sessions` row for the session id under study:
`none` when no row exists, `some row` otherwise (row timestamps are
wall-clock only and are not modelled). -/

/-- `Database.save_session` (core/database.py lines 53-124). Line 65 reads
`session.detection_result` inside the serialization — the pydantic field is
named `detectionResult`, and the guard on the same line uses the correct
name — so whenever a detection result is present the attribute access
raises, the `except` branch returns `False`, and nothing is written. Only a
session with no detection result is actually written (never the case on the
handler path, which stores a detection result before every save). -/
def save_session (store : Option SessionState) (session : SessionState) :
    Option SessionState × Bool :=
  match session.detectionResult with
  | some _ => (store, false)
  | none => (some session, true)

/-- `Database.get_session` (core/database.py lines 126-143): the stored row
reconstructed as a session, or `none` when no row exists. -/
def get_session (store : Option SessionState) : Option SessionState :=
  store

/-- `Database.mark_callback_sent` (core/database.py lines 199-213): sets the
`callback_sent` column of the row when one exists; an `UPDATE` matching zero
rows is still reported as success. -/
def mark_callback_sent (store : Option SessionState) :
    Option SessionState × Bool :=
  match store with
  | some row => (some { row with callbackSent := true }, true)
  | none => (none, true)

/-- One `/api/scam-detection` invocation including its persistence calls
(app/main.py lines 123-131, 232, 236-241 and 247): load the session row or
start from a fresh session, run the turn, and perform the handler's
`save_session` before the callback when ready, `mark_callback_sent` after a
successful send, and the unconditional final `save_session` (their returned
status is ignored by the handler, exactly as in the source). The next
invocation sees only what these calls persisted. -/
def serviceTurn (env : TurnEnv) (sid : String) (store : Option SessionState)
    (inp : TurnInput) : Option SessionState × TurnOutcome :=
  let session := (get_session store).getD { sessionId := sid }
  let out := processTurn env session inp
  let store1 :=
    if out.callbackAttempted then
      (save_session store { out.session with callbackSent := session.callbackSent }).1
    else store
  let store2 :=
    if out.callbackAttempted && inp.callbackSucceeds then (mark_callback_sent store1).1
    else store1
  ((save_session store2 out.session).1, out)

/-- The service across invocations for one session id: each next turn's
input state is whatever the persistence layer retained from the previous
turn; collects, per invocation, whether the outbound callback was invoked. -/
def runService (env : TurnEnv) (sid : String) (store : Option SessionState) :
    List TurnInput → Option SessionState × List Bool
  | [] => (store, [])
  | inp :: rest =>
    let step := serviceTurn env sid store inp
    let tail := runService env sid step.1 rest
    (tail.1, step.2.callbackAttempted :: tail.2)

/-- A concrete environment for exercising the service loop: the classifier
always reports a scam (division-free constants keep the terms kernel-
computable) and the extractor finds the UPI id `refund@paytm` whenever some
message mentions it — the behavior of the real detector and extractor on the
turn texts below (four matched categories score 0.99, and `refund@paytm`
passes the UPI validator). -/
def bugEnv : TurnEnv :=
  { detectFn := fun _ => { scamDetected := true, confidenceScore := 1 }
    extractFn := fun msgs =>
      if msgs.any (fun m => strOccurs "refund@paytm" m.text) then
        { upiIds := ["refund@paytm"] }
      else {}
    threshold := 0
    minTurns := 3 }

/-- A concrete ready turn: three scammer messages (one incoming, two via
history), an extractable UPI id, and a callback transport that succeeds. -/
def bugTurn : TurnInput :=
  { incoming := { sender := .scammer, text := "send the fee to refund@paytm now" }
    history := [{ sender := .scammer,
                  text := "Your bank account will be blocked today, urgent" },
                { sender := .scammer, text := "Pay the processing fee immediately" }]
    callbackSucceeds := true
    agentReply := "ok"
    agentNotes := some "notes" }

/-- First turn of the accumulation-loss run: the scammer states a UPI id. -/
def lossTurn1 : TurnInput :=
  { incoming := { sender := .scammer, text := "my upi is refund@paytm" }
    agentReply := "ok" }

/-- Second turn of the accumulation-loss run: no identifier, no history. -/
def lossTurn2 : TurnInput :=
  { incoming := { sender := .scammer, text := "hello again" }
    agentReply := "ok" }

/-! ## Theorems -/



/-- Claim C10: for every URL that parses without error, `_is_suspicious_url`
returns false iff the host, after stripping a leading `www.`, equals or is a
subdomain of an entry of the fixed `LEGITIMATE_DOMAINS` allowlist; the
suspicious-TLD, typosquat, credential-keyword and URL-shortener steps never
change the outcome, because every non-allowlisted host falls through to the
default suspicious result. -/
theorem is_suspicious_url_iff_not_allowlisted (netloc : String) :
    is_suspicious_url (some netloc) =
      !spec_allowlist_membership (strip_www (strLower netloc)) := by
  have h : allowlisted (strip_www (strLower netloc))
      = spec_allowlist_membership (strip_www (strLower netloc)) := rfl
  show is_suspicious_domain (strip_www (strLower netloc)) = _
  unfold is_suspicious_domain
  rw [h]
  cases spec_allowlist_membership (strip_www (strLower netloc)) with
  | false => split_ifs <;> simp_all
  | true => simp

/-- Claim C9: the URL suspicion check returns not-suspicious whenever the
parsed host, after stripping a leading `www.`, equals or is a subdomain of an
allowlist entry; it returns suspicious for every host matching none of the
heuristic steps (default-deny); and it returns suspicious when URL parsing
raises (fail-safe). -/
theorem url_suspicion_allowlist_default_deny (netloc domain : String) :
    (allowlisted (strip_www (strLower netloc)) = true →
      is_suspicious_url (some netloc) = false) ∧
    (allowlisted domain = false → suspiciousTldHit domain = false →
      typosquatHit domain = false → credKeywordHit domain = false →
      shortenerHit domain = false → is_suspicious_domain domain = true) ∧
    is_suspicious_url none = true := by
  refine ⟨?_, ?_, rfl⟩
  · intro h
    show is_suspicious_domain (strip_www (strLower netloc)) = false
    unfold is_suspicious_domain
    rw [h]
    rfl
  · intro h1 h2 h3 h4 h5
    unfold is_suspicious_domain
    rw [h1, h2, h3, h4, h5]
    rfl

/-- Witness for C9 at concrete inputs: an allowlisted bank host is kept
non-suspicious, a neutral unknown host hits the default-deny branch, and a
parse failure is suspicious. -/
theorem url_suspicion_witness :
    is_suspicious_url (some "www.SBI.co.in") = false ∧
    is_suspicious_domain "foo.net" = true ∧
    is_suspicious_url none = true :=
  ⟨(url_suspicion_allowlist_default_deny "www.SBI.co.in" "foo.net").1 (by decide),
    (url_suspicion_allowlist_default_deny "www.SBI.co.in" "foo.net").2.1
      (by decide) (by decide) (by decide) (by decide) (by decide),
    (url_suspicion_allowlist_default_deny "www.SBI.co.in" "foo.net").2.2⟩

/-- Claim C5: the scam type is determined by the fixed priority order
payment-transfer (UPI) fraud > bank fraud > phishing > fake-offer > OTP/PIN
harvesting, first matching category winning; if none of those matched but
the urgency or generic-suspicious-keyword category did, the type is
phishing; otherwise it is UNKNOWN. -/
theorem determine_scam_type_priority (cm : List (String × List String)) :
    determine_scam_type cm =
      if hasCat cm "upi_fraud" then .upi_fraud
      else if hasCat cm "bank_fraud" then .bank_fraud
      else if hasCat cm "phishing" then .phishing
      else if hasCat cm "fake_offers" then .fake_offer
      else if hasCat cm "otp_pin_harvesting" then .otp_harvesting
      else if hasCat cm "urgency" || hasCat cm "suspicious_keywords" then .phishing
      else .unknown := by
  unfold determine_scam_type scamTypePriority
  cases h1 : hasCat cm "upi_fraud" <;> cases h2 : hasCat cm "bank_fraud" <;>
    cases h3 : hasCat cm "phishing" <;> cases h4 : hasCat cm "fake_offers" <;>
    cases h5 : hasCat cm "otp_pin_harvesting" <;>
    simp [List.find?, h1, h2, h3, h4, h5]

/-- Claim C6: the classifier is a deterministic pure function of the
transcript: `detect` leaves the detector state unchanged, and re-running it
on the same transcript with the same state returns the identical
`ScamDetectionResult`. -/
theorem detect_deterministic (d : ScamDetector) (search : String → String → Bool)
    (threshold : ℚ) (transcript : List Message) :
    (d.detect search threshold transcript).2 = d ∧
    (d.detect search threshold transcript).1 =
      ((d.detect search threshold transcript).2.detect search threshold transcript).1 :=
  ⟨rfl, rfl⟩

/-- Every value in the phone accumulation fold either was in the accumulator
already or is the normalization of one of the raw matches. -/
lemma mem_phone_fold (ms : List String) (acc : List String) (n : String)
    (h : n ∈ ms.foldl
      (fun numbers m =>
        match normalize_phone m with
        | none => numbers
        | some x => if x ∈ numbers then numbers else numbers ++ [x]) acc) :
    n ∈ acc ∨ ∃ m ∈ ms, normalize_phone m = some n := by
  induction ms generalizing acc with
  | nil => exact Or.inl h
  | cons m rest ih =>
    simp only [List.foldl_cons] at h
    rcases ih _ h with hacc | ⟨m', hm', hn⟩
    · cases he : normalize_phone m with
      | none => rw [he] at hacc; exact Or.inl hacc
      | some x =>
        rw [he] at hacc
        dsimp only at hacc
        by_cases hx : x ∈ acc
        · rw [if_pos hx] at hacc
          exact Or.inl hacc
        · rw [if_neg hx] at hacc
          rcases List.mem_append.mp hacc with h1 | h2
          · exact Or.inl h1
          · refine Or.inr ⟨m, List.mem_cons_self m rest, ?_⟩
            rw [he, List.mem_singleton.mp h2]
    · exact Or.inr ⟨m', List.mem_cons_of_mem m hm', hn⟩

/-- Claim C7: phone normalization strips non-digits and then: exactly 10
digits gain the country code; exactly 12 digits already starting with the
country code gain only a leading `+` (no duplicated code); more than 10
digits otherwise gain a leading `+`; fewer than 10 digits are discarded, and
every number in the `phoneNumbers` output arises as the normalization of
some raw match (so short matches never appear). -/
theorem normalize_phone_spec (s : String) :
    ((phoneDigits s).length = 10 →
      normalize_phone s = some ("+" ++ countryCode ++ phoneDigits s)) ∧
    ((phoneDigits s).length = 12 → strStarts countryCode (phoneDigits s) = true →
      normalize_phone s = some ("+" ++ phoneDigits s)) ∧
    (10 < (phoneDigits s).length →
      ¬((phoneDigits s).length = 12 ∧ strStarts countryCode (phoneDigits s) = true) →
      normalize_phone s = some ("+" ++ phoneDigits s)) ∧
    ((phoneDigits s).length < 10 → normalize_phone s = none) ∧
    (∀ ms n, n ∈ extract_phone_numbers ms → ∃ m ∈ ms, normalize_phone m = some n) := by
  refine ⟨?_, ?_, ?_, ?_, ?_⟩
  · intro h
    simp [normalize_phone, h]
  · intro h1 h2
    rw [normalize_phone]
    rw [if_neg (by omega), if_pos ⟨h1, h2⟩]
  · intro h1 h2
    rw [normalize_phone]
    rw [if_neg (by omega), if_neg h2, if_pos h1]
  · intro h
    rw [normalize_phone]
    rw [if_neg (by omega), if_neg (by omega), if_neg (by omega)]
  · intro ms n hn
    have hn' : n ∈ ms.foldl
        (fun numbers m =>
          match normalize_phone m with
          | none => numbers
          | some x => if x ∈ numbers then numbers else numbers ++ [x]) [] :=
      List.take_subset 5 _ hn
    rcases mem_phone_fold ms [] n hn' with habs | hgood
    · exact absurd habs (List.not_mem_nil n)
    · exact hgood

/-- Witness for C7 at concrete inputs: a 10-digit match gains the country
code, a 12-digit match carrying it gains only `+`, and a 5-digit match is
discarded and absent from the output. -/
theorem normalize_phone_witness :
    normalize_phone "98765-43210" = some "+919876543210" ∧
    normalize_phone "+91 9876543210" = some "+919876543210" ∧
    normalize_phone "0 9876543210" = some "+09876543210" ∧
    normalize_phone "12345" = none ∧
    ∃ m ∈ ["98765-43210"], normalize_phone m = some "+919876543210" :=
  ⟨(normalize_phone_spec "98765-43210").1 (by decide),
    (normalize_phone_spec "+91 9876543210").2.1 (by decide) (by decide),
    (normalize_phone_spec "0 9876543210").2.2.1 (by decide) (by decide),
    (normalize_phone_spec "12345").2.2.2.1 (by decide),
    (normalize_phone_spec "98765-43210").2.2.2.2 ["98765-43210"] "+919876543210"
      (by decide)⟩

lemma ite_zero_nonneg {c : Prop} [Decidable c] {x : ℚ} (hx : 0 ≤ x) :
    0 ≤ if c then x else 0 := by
  split_ifs <;> simp [hx]

lemma multiRuleBonus_nonneg (n : Nat) : 0 ≤ multiRuleBonus n := by
  unfold multiRuleBonus
  have h1 : (0:ℚ) ≤ if 2 ≤ n then 1/10 else 0 := ite_zero_nonneg (by norm_num)
  have h2 : (0:ℚ) ≤ if 3 ≤ n then 1/10 else 0 := ite_zero_nonneg (by norm_num)
  linarith

lemma calculate_confidence_nonneg (cm : List (String × List String)) :
    0 ≤ calculate_confidence cm := by
  rw [calculate_confidence]
  refine le_min ?_ (by norm_num)
  have h0 : (0:ℚ) ≤ min ((cm.length : ℚ) * (15/100)) (45/100) :=
    le_min (by positivity) (by norm_num)
  have hsum : 0 ≤ (cm.map (fun p => multiRuleBonus p.2.length)).sum :=
    List.sum_nonneg (fun x hx => by
      rcases List.mem_map.mp hx with ⟨a, _, rfl⟩
      exact multiRuleBonus_nonneg _)
  have i1 : (0:ℚ) ≤ if hasCat cm "urgency" then 15/100 else 0 :=
    ite_zero_nonneg (by norm_num)
  have i2 : (0:ℚ) ≤ if hasCat cm "otp_pin_harvesting" then 15/100 else 0 :=
    ite_zero_nonneg (by norm_num)
  have i3 : (0:ℚ) ≤ if hasCat cm "phishing" then 15/100 else 0 :=
    ite_zero_nonneg (by norm_num)
  have i4 : (0:ℚ) ≤ if hasCat cm "upi_fraud" then 1/10 else 0 :=
    ite_zero_nonneg (by norm_num)
  have i5 : (0:ℚ) ≤ if hasCat cm "bank_fraud" then 1/10 else 0 :=
    ite_zero_nonneg (by norm_num)
  have i6 : (0:ℚ) ≤
      if hasCat cm "urgency" && (hasCat cm "bank_fraud" || hasCat cm "upi_fraud")
      then 15/100 else 0 :=
    ite_zero_nonneg (by norm_num)
  linarith

lemma round_mono_rat {x y : ℚ} (h : x ≤ y) : round x ≤ round y := by
  rw [round_eq, round_eq]
  exact Int.floor_le_floor (by linarith)

lemma round2_bounds {q : ℚ} (h0 : 0 ≤ q) (h1 : q ≤ 99/100) :
    0 ≤ round2 q ∧ round2 q ≤ 99/100 := by
  unfold round2
  have m0 : (0:ℤ) ≤ round (q * 100) := by
    have h := round_mono_rat (show (0:ℚ) ≤ q * 100 by linarith)
    simpa using h
  have m1 : round (q * 100) ≤ 99 := by
    have h : q * 100 ≤ ((99:ℤ) : ℚ) := by push_cast; linarith
    have := round_mono_rat h
    simpa using this
  constructor
  · have : (0:ℚ) ≤ ((round (q * 100) : ℤ) : ℚ) := by exact_mod_cast m0
    linarith
  · have : ((round (q * 100) : ℤ) : ℚ) ≤ 99 := by exact_mod_cast m1
    linarith

/-- Claim C4: for every `category_matches`, the reported confidence lies in
`[0, 0.99]`; with no matched category the result is exactly
`{scamDetected := false, confidence := 0.1, type := unknown, indicators := [],
reasoning := "No scam indicators detected"}`; with at least one match the
score is the rounded, `0.99`-capped additive sum. -/
theorem detect_confidence_bounds (threshold : ℚ) (cm : List (String × List String))
    (ind : List String) :
    (0 ≤ (detectCore threshold cm ind).confidenceScore ∧
      (detectCore threshold cm ind).confidenceScore ≤ 99/100) ∧
    (cm = [] → detectCore threshold cm ind =
      { scamDetected := false, confidenceScore := 1/10, scamType := .unknown,
        indicators := [], reasoning := "No scam indicators detected" }) ∧
    (cm ≠ [] → (detectCore threshold cm ind).confidenceScore =
      round2 (calculate_confidence cm)) := by
  by_cases hcm : cm = []
  · subst hcm
    refine ⟨⟨by norm_num [detectCore, noMatchResult], by norm_num [detectCore, noMatchResult]⟩,
      fun _ => rfl, fun h => absurd rfl h⟩
  · have hne : ¬cm.isEmpty := by simpa [List.isEmpty_iff] using hcm
    have hscore : (detectCore threshold cm ind).confidenceScore =
        round2 (calculate_confidence cm) := by
      rw [detectCore, if_neg (by simpa [List.isEmpty_iff] using hcm)]
    have hb := round2_bounds (calculate_confidence_nonneg cm)
      (min_le_right _ _ : calculate_confidence cm ≤ 99/100)
    exact ⟨⟨hscore ▸ hb.1, hscore ▸ hb.2⟩, fun h => absurd h hcm, fun _ => hscore⟩

/-- Witness for C4 at concrete inputs: the empty match map yields the exact
no-indicators result (confidence 0.1), and a two-category match map yields a
score within the bounds. -/
theorem detect_confidence_bounds_witness :
    detectCore (6/10) [] [] =
      { scamDetected := false, confidenceScore := 1/10, scamType := .unknown,
        indicators := [], reasoning := "No scam indicators detected" } ∧
    (0 ≤ (detectCore (6/10) [("urgency", ["urgent"]), ("bank_fraud", ["sbi"])]
        []).confidenceScore ∧
      (detectCore (6/10) [("urgency", ["urgent"]), ("bank_fraud", ["sbi"])]
        []).confidenceScore ≤ 99/100) ∧
    (detectCore (6/10) [("urgency", ["urgent"]), ("bank_fraud", ["sbi"])]
        []).confidenceScore =
      round2 (calculate_confidence [("urgency", ["urgent"]), ("bank_fraud", ["sbi"])]) :=
  ⟨(detect_confidence_bounds (6/10) [] []).2.1 rfl,
    (detect_confidence_bounds (6/10) [("urgency", ["urgent"]), ("bank_fraud", ["sbi"])] []).1,
    (detect_confidence_bounds (6/10) [("urgency", ["urgent"]), ("bank_fraud", ["sbi"])] []).2.2
      (by decide)⟩

lemma mergeField_cons (acc : List String) (y : String) (ys : List String) :
    mergeField acc (y :: ys) = mergeField (if y ∈ acc then acc else acc ++ [y]) ys := rfl

lemma mergeField_subset (acc new : List String) : acc ⊆ mergeField acc new := by
  induction new generalizing acc with
  | nil => exact fun x hx => hx
  | cons y ys ih =>
    rw [mergeField_cons]
    refine List.Subset.trans ?_ (ih _)
    split_ifs
    · exact fun x hx => hx
    · exact List.subset_append_left acc [y]

lemma mergeField_nodup (acc new : List String) (h : acc.Nodup) :
    (mergeField acc new).Nodup := by
  induction new generalizing acc with
  | nil => exact h
  | cons y ys ih =>
    rw [mergeField_cons]
    apply ih
    split_ifs with hy
    · exact h
    · simp [List.nodup_append, h, hy]

/-- The accumulated intelligence after a turn is the merge of the previous
accumulation with this turn's extraction. -/
lemma processTurn_intel (env : TurnEnv) (s : SessionState) (inp : TurnInput) :
    (processTurn env s inp).session.extractedIntelligence = turnIntel env s inp := rfl

/-- Within a single invocation, for every field of the accumulated
intelligence, the merge step removes nothing (the in-memory input list is a
subset of the output list) and preserves freedom from duplicates. This is
the per-turn half of the accumulation story; see `runService_intel_lost`
for why it does not extend across invocations. -/
theorem processTurn_intel_monotone_nodup (env : TurnEnv) (s : SessionState)
    (inp : TurnInput) :
    (s.extractedIntelligence.bankAccounts ⊆
        (processTurn env s inp).session.extractedIntelligence.bankAccounts ∧
      (s.extractedIntelligence.bankAccounts.Nodup →
        (processTurn env s inp).session.extractedIntelligence.bankAccounts.Nodup)) ∧
    (s.extractedIntelligence.ifscCodes ⊆
        (processTurn env s inp).session.extractedIntelligence.ifscCodes ∧
      (s.extractedIntelligence.ifscCodes.Nodup →
        (processTurn env s inp).session.extractedIntelligence.ifscCodes.Nodup)) ∧
    (s.extractedIntelligence.upiIds ⊆
        (processTurn env s inp).session.extractedIntelligence.upiIds ∧
      (s.extractedIntelligence.upiIds.Nodup →
        (processTurn env s inp).session.extractedIntelligence.upiIds.Nodup)) ∧
    (s.extractedIntelligence.phishingLinks ⊆
        (processTurn env s inp).session.extractedIntelligence.phishingLinks ∧
      (s.extractedIntelligence.phishingLinks.Nodup →
        (processTurn env s inp).session.extractedIntelligence.phishingLinks.Nodup)) ∧
    (s.extractedIntelligence.phoneNumbers ⊆
        (processTurn env s inp).session.extractedIntelligence.phoneNumbers ∧
      (s.extractedIntelligence.phoneNumbers.Nodup →
        (processTurn env s inp).session.extractedIntelligence.phoneNumbers.Nodup)) ∧
    (s.extractedIntelligence.suspiciousKeywords ⊆
        (processTurn env s inp).session.extractedIntelligence.suspiciousKeywords ∧
      (s.extractedIntelligence.suspiciousKeywords.Nodup →
        (processTurn env s inp).session.extractedIntelligence.suspiciousKeywords.Nodup)) := by
  rw [processTurn_intel]
  unfold turnIntel mergeIntel
  exact ⟨⟨mergeField_subset _ _, mergeField_nodup _ _⟩,
    ⟨mergeField_subset _ _, mergeField_nodup _ _⟩,
    ⟨mergeField_subset _ _, mergeField_nodup _ _⟩,
    ⟨mergeField_subset _ _, mergeField_nodup _ _⟩,
    ⟨mergeField_subset _ _, mergeField_nodup _ _⟩,
    ⟨mergeField_subset _ _, mergeField_nodup _ _⟩⟩

/-- The per-invocation merge at concrete inputs: a turn that re-extracts an
already known UPI id plus a new one keeps the old value, adds the new one
once, and stays duplicate-free. -/
theorem processTurn_intel_monotone_nodup_witness :
    (processTurn
        { detectFn := fun _ => {}, extractFn := fun _ => { upiIds := ["a@paytm", "b@ybl", "a@paytm"] },
          threshold := 6/10, minTurns := 3 }
        { sessionId := "s", extractedIntelligence := { upiIds := ["a@paytm"] } }
        { incoming := { sender := .scammer, text := "hi" } }).session.extractedIntelligence.upiIds.Nodup ∧
    (processTurn
        { detectFn := fun _ => {}, extractFn := fun _ => { upiIds := ["a@paytm", "b@ybl", "a@paytm"] },
          threshold := 6/10, minTurns := 3 }
        { sessionId := "s", extractedIntelligence := { upiIds := ["a@paytm"] } }
        { incoming := { sender := .scammer, text := "hi" } }).session.extractedIntelligence.upiIds
      = ["a@paytm", "b@ybl"] :=
  ⟨(processTurn_intel_monotone_nodup
      { detectFn := fun _ => {}, extractFn := fun _ => { upiIds := ["a@paytm", "b@ybl", "a@paytm"] },
        threshold := 6/10, minTurns := 3 }
      { sessionId := "s", extractedIntelligence := { upiIds := ["a@paytm"] } }
      { incoming := { sender := .scammer, text := "hi" } }).2.2.1.2 (by decide),
    by decide⟩

/-- Claim C3 (code bug): accumulated intelligence does not survive an
invocation boundary, so the cross-turn superset property fails in the
program. A first turn accumulates the UPI id `refund@paytm`, but the session is
never persisted (`save_session` always fails on the
`session.detection_result` typo at core/database.py line 65), so the second
invocation without supplied history starts from a fresh session and ends
with an empty accumulation — not a superset of the previous turn's value. -/
theorem runService_intel_lost :
    (serviceTurn bugEnv "s2" none lossTurn1).2.session.extractedIntelligence.upiIds
      = ["refund@paytm"] ∧
    (serviceTurn bugEnv "s2" (serviceTurn bugEnv "s2" none lossTurn1).1
        lossTurn2).2.session.extractedIntelligence.upiIds = [] := by
  decide

lemma processTurn_attempted (env : TurnEnv) (s : SessionState) (inp : TurnInput) :
    (processTurn env s inp).callbackAttempted = turnReady env s inp := rfl

lemma processTurn_messages (env : TurnEnv) (s : SessionState) (inp : TurnInput) :
    (processTurn env s inp).session.messages = turnFinalMessages env s inp := rfl

lemma processTurn_detection_eq (env : TurnEnv) (s : SessionState) (inp : TurnInput) :
    (processTurn env s inp).session.detectionResult = some (turnDetection env s inp) := rfl

lemma has_intelligence_iff (e : ExtractedIntelligence) :
    e.has_intelligence = true ↔
      (e.bankAccounts ≠ [] ∨ e.ifscCodes ≠ [] ∨ e.upiIds ≠ [] ∨
        e.phishingLinks ≠ [] ∨ e.phoneNumbers ≠ []) := by
  simp [ExtractedIntelligence.has_intelligence, List.isEmpty_iff, or_assoc]

/-- Claim C2: within a turn, the outbound callback is invoked iff, after
detection, extraction and merging, the detection result stored on the
session reports a scam, the session holds at least `minTurns`
scammer-authored messages, the callback was not already sent, and the merged
intelligence has a non-empty list among bank accounts, IFSC codes, UPI ids,
phishing links and phone numbers (suspicious keywords alone never count). -/
theorem processTurn_callback_condition (env : TurnEnv) (s : SessionState)
    (inp : TurnInput) :
    (processTurn env s inp).callbackAttempted = true ↔
      ((∃ dr, (processTurn env s inp).session.detectionResult = some dr ∧
          dr.scamDetected = true) ∧
        env.minTurns ≤ scammerCount (processTurn env s inp).session.messages ∧
        s.callbackSent = false ∧
        ((processTurn env s inp).session.extractedIntelligence.bankAccounts ≠ [] ∨
          (processTurn env s inp).session.extractedIntelligence.ifscCodes ≠ [] ∨
          (processTurn env s inp).session.extractedIntelligence.upiIds ≠ [] ∨
          (processTurn env s inp).session.extractedIntelligence.phishingLinks ≠ [] ∨
          (processTurn env s inp).session.extractedIntelligence.phoneNumbers ≠ [])) := by
  rw [processTurn_attempted, processTurn_messages, processTurn_detection_eq,
    processTurn_intel]
  rw [← has_intelligence_iff]
  rw [turnReady]
  simp [Bool.and_eq_true, decide_eq_true_eq, Bool.not_eq_true', and_assoc]

/-- Claim C1 (code bug): the callback latch does not survive an invocation
boundary. Evaluating the service at the failing input — two identical ready
turns for one session, the callback transport succeeding both times — shows
both invocations invoke the outbound callback: `save_session` fails whenever
a detection result is set (core/database.py line 65 reads the nonexistent
`session.detection_result`), so no row is ever written, the store stays
empty, and the second invocation loads a fresh session with
`callbackSent = false` and sends again. -/
theorem runService_double_callback :
    (runService bugEnv "s1" none [bugTurn, bugTurn]).2 = [true, true] ∧
    (runService bugEnv "s1" none [bugTurn, bugTurn]).1 = none ∧
    (save_session none (serviceTurn bugEnv "s1" none bugTurn).2.session).2 = false := by
  decide

lemma updateFlags_attempts (mem : ConversationMemory) (ext : ExtractedIntelligence) :
    (updateFlags mem ext).extraction_attempts = mem.extraction_attempts := by
  simp only [updateFlags]
  split_ifs <;> rfl

lemma recordAttempt_attempts_ge (m : ConversationMemory) (f g : TargetField) :
    m.extraction_attempts g ≤ (recordAttempt m f).extraction_attempts g := by
  by_cases h : g = f <;> simp [recordAttempt, h]

lemma determine_strategy_no_extract (msg : String) (ext : ExtractedIntelligence)
    (mem : ConversationMemory) (tc : Nat) (f : TargetField)
    (h : 2 ≤ mem.extraction_attempts f) :
    determine_strategy msg ext mem tc ≠ .extract f := by
  cases f <;>
    (unfold determine_strategy
     split_ifs <;> simp_all
     omega)

lemma generate_response_attempts_mono (mem : ConversationMemory) (tc : Nat)
    (msgs : List Message) (ext : ExtractedIntelligence) (g : TargetField) :
    mem.extraction_attempts g ≤
      (generate_response_step mem tc msgs ext).2.1.extraction_attempts g := by
  unfold generate_response_step
  cases hm : lastScammerMsg msgs with
  | none => exact le_refl _
  | some msg =>
    dsimp only
    cases hs : determine_strategy msg ext (updateFlags mem ext) (tc + 1) with
    | extract f =>
      dsimp only
      split_ifs
      · calc mem.extraction_attempts g
            = (updateFlags mem ext).extraction_attempts g := by
              rw [updateFlags_attempts]
          _ ≤ (recordAttempt (updateFlags mem ext) f).extraction_attempts g :=
              recordAttempt_attempts_ge _ f g
      · rw [updateFlags_attempts]
    | express_concern => rw [updateFlags_attempts]
    | express_confusion => rw [updateFlags_attempts]
    | ask_clarification => rw [updateFlags_attempts]
    | show_cooperation => rw [updateFlags_attempts]

lemma generate_response_no_extract (mem : ConversationMemory) (tc : Nat)
    (msgs : List Message) (ext : ExtractedIntelligence) (f : TargetField)
    (h : 2 ≤ mem.extraction_attempts f) :
    (generate_response_step mem tc msgs ext).1 ≠ .extraction_question f := by
  unfold generate_response_step
  cases hm : lastScammerMsg msgs with
  | none => simp
  | some msg =>
    dsimp only
    have h4 : 2 ≤ (updateFlags mem ext).extraction_attempts f := by
      rw [updateFlags_attempts]
      exact h
    have hne := determine_strategy_no_extract msg ext (updateFlags mem ext) (tc + 1) f h4
    cases hs : determine_strategy msg ext (updateFlags mem ext) (tc + 1) with
    | extract g =>
      have hgf : g ≠ f := by
        intro hh
        rw [hh] at hs
        exact hne hs
      dsimp only
      split_ifs <;> simp [hgf]
    | express_concern => simp
    | express_confusion => simp
    | ask_clarification => simp
    | show_cooperation => simp

lemma generate_response_fallback (mem : ConversationMemory) (tc : Nat)
    (msgs : List Message) (ext : ExtractedIntelligence)
    (h : ∀ g, 2 ≤ mem.extraction_attempts g) :
    (generate_response_step mem tc msgs ext).1 = .concern ∨
    (generate_response_step mem tc msgs ext).1 = .confusion ∨
    (generate_response_step mem tc msgs ext).1 = .clarification ∨
    (generate_response_step mem tc msgs ext).1 = .cooperation ∨
    (generate_response_step mem tc msgs ext).1 = .random_fallback := by
  unfold generate_response_step
  cases hm : lastScammerMsg msgs with
  | none => simp
  | some msg =>
    dsimp only
    cases hs : determine_strategy msg ext (updateFlags mem ext) (tc + 1) with
    | extract g =>
      exact absurd hs (determine_strategy_no_extract msg ext (updateFlags mem ext)
        (tc + 1) g (by rw [updateFlags_attempts]; exact h g))
    | express_concern => simp
    | express_confusion => simp
    | ask_clarification => simp
    | show_cooperation => simp

/-- Claim C8: once a field's extraction attempt counter has reached 2, no
later turn of the strategy engine ever returns an extraction question for
that field (the counters never decrease); and when every field is capped,
each turn falls back to a stalling or cooperative response. -/
theorem strategy_attempt_cap (f : TargetField) (mem : ConversationMemory) (tc : Nat)
    (turns : List (List Message × ExtractedIntelligence))
    (h : 2 ≤ mem.extraction_attempts f) :
    ResponseKind.extraction_question f ∉ (runAgentTurns mem tc turns).2.2 ∧
    ((∀ g, 2 ≤ mem.extraction_attempts g) →
      ∀ r ∈ (runAgentTurns mem tc turns).2.2,
        r = .concern ∨ r = .confusion ∨ r = .clarification ∨
          r = .cooperation ∨ r = .random_fallback) := by
  induction turns generalizing mem tc with
  | nil => exact ⟨by simp [runAgentTurns], by simp [runAgentTurns]⟩
  | cons t rest ih =>
    rcases t with ⟨msgs, ext⟩
    have hmono := generate_response_attempts_mono mem tc msgs ext
    have hstep : 2 ≤ (generate_response_step mem tc msgs ext).2.1.extraction_attempts f :=
      le_trans h (hmono f)
    rcases ih (generate_response_step mem tc msgs ext).2.1
      (generate_response_step mem tc msgs ext).2.2 hstep with ⟨ih1, ih2⟩
    constructor
    · intro hmem
      simp only [runAgentTurns] at hmem
      rcases List.mem_cons.mp hmem with heq | hmem2
      · exact generate_response_no_extract mem tc msgs ext f h heq.symm
      · exact ih1 hmem2
    · intro hall r hr
      simp only [runAgentTurns] at hr
      rcases List.mem_cons.mp hr with rfl | hr2
      · exact generate_response_fallback mem tc msgs ext hall
      · exact ih2 (fun g => le_trans (hall g) (hmono g)) r hr2

/-- Witness for C8 at a concrete memory whose counters are all 2: a turn
whose scammer message asks for UPI yields no UPI extraction question, only a
stalling/cooperative response. -/
theorem strategy_attempt_cap_witness :
    ResponseKind.extraction_question TargetField.upi ∉
      (runAgentTurns
        { extracted_so_far := fun _ => false, extraction_attempts := fun _ => 2 } 3
        [([{ sender := .scammer, text := "send upi money now" }], {})]).2.2 ∧
    (∀ r ∈ (runAgentTurns
        { extracted_so_far := fun _ => false, extraction_attempts := fun _ => 2 } 3
        [([{ sender := .scammer, text := "send upi money now" }], {})]).2.2,
      r = .concern ∨ r = .confusion ∨ r = .clarification ∨
        r = .cooperation ∨ r = .random_fallback) :=
  ⟨(strategy_attempt_cap .upi
      { extracted_so_far := fun _ => false, extraction_attempts := fun _ => 2 } 3
      [([{ sender := .scammer, text := "send upi money now" }], {})]
      (Nat.le_refl 2)).1,
    (strategy_attempt_cap .upi
      { extracted_so_far := fun _ => false, extraction_attempts := fun _ => 2 } 3
      [([{ sender := .scammer, text := "send upi money now" }], {})]
      (Nat.le_refl 2)).2 (fun _ => Nat.le_refl 2)⟩
